import Mathlib

/-!
Shallow embedding of `continuous_time_models.py`: continuous-time structural
credit-risk valuation of a levered firm (equity, debt, firm value) under an
immediate-liquidation model and a strategic-renegotiation model.

Python floats are modelled by real numbers.  Python runtime failures are
modelled with `Except String`: a `TypeError` either from applying `**` to a
bound method (the liquidation engine references `self._beta2` without calling
it) or from doing arithmetic on an attribute left at its default `None`.
-/

noncomputable section

/-- Parameter bundle for the firm's asset process, mirroring
`AssetsDynamics.__init__`: `q`, `eta`, `theta` default to `None`. -/
structure AssetsDynamics where
  drift : ℝ
  volatility : ℝ
  r_free : ℝ
  tau : ℝ
  alpha : ℝ
  q : Option ℝ := none
  eta : Option ℝ := none
  theta : Option ℝ := none

/-- `AssetsDynamics.value`: after-tax perpetuity value
`cash_flow * (1 - tau) / (r_free - drift)`. -/
def AssetsDynamics.value (self : AssetsDynamics) (cash_flow : ℝ) : ℝ :=
  cash_flow * (1 - self.tau) / (self.r_free - self.drift)

/-- A Python value appearing as the right operand of `**` in the source:
either a float or a bound method (as in `self._beta2` without parentheses). -/
inductive PyVal where
  | float : ℝ → PyVal
  | boundMethod : (Unit → ℝ) → PyVal

/-- Message of the TypeError Python raises for `float ** bound-method`. -/
def typeErrorPow : String :=
  "TypeError: unsupported operand types for pow: float and method"

/-- Message of the TypeError Python raises for arithmetic on None. -/
def typeErrorNone : String :=
  "TypeError: unsupported operand type: NoneType"

/-- Semantics of the Python `**` operator with a float base: defined on a
float exponent, a TypeError on a bound-method exponent. -/
def pypow (base : ℝ) : PyVal → Except String ℝ
  | PyVal.float exponent => Except.ok (base ^ exponent)
  | PyVal.boundMethod _ => Except.error typeErrorPow

/-- Semantics of using a possibly-`None` attribute in Python arithmetic:
a number passes through, `None` raises a TypeError. -/
def pyNum : Option ℝ → Except String ℝ
  | some v => Except.ok v
  | none => Except.error typeErrorNone

/-- `FirmClaimsLiquidation`: valuation engine for default-then-liquidation. -/
structure FirmClaimsLiquidation where
  asset_dynamics : AssetsDynamics

/-- `FirmClaimsLiquidation._beta2`: the negative root
`0.5 - mu/sigma^2 - sqrt((0.5 - mu/sigma^2)^2 + 2 r/sigma^2)`. -/
def FirmClaimsLiquidation.beta2 (self : FirmClaimsLiquidation) : ℝ :=
  0.5 - self.asset_dynamics.drift / self.asset_dynamics.volatility ^ 2 -
    Real.sqrt ((0.5 - self.asset_dynamics.drift / self.asset_dynamics.volatility ^ 2) ^ 2
      + 2 * self.asset_dynamics.r_free / self.asset_dynamics.volatility ^ 2)

/-- `FirmClaimsLiquidation._arrow_debreu_default`: the source computes
`(cash_flow/debt_limit) ** self._beta2` where `self._beta2` is the *uncalled*
bound method (no parentheses in the source), so the exponent is a method
object, not a number. -/
def FirmClaimsLiquidation.arrow_debreu_default (self : FirmClaimsLiquidation)
    (cash_flow debt_limit : ℝ) : Except String ℝ :=
  pypow (cash_flow / debt_limit) (PyVal.boundMethod fun _ => self.beta2)

/-- `FirmClaimsLiquidation.equity`. -/
def FirmClaimsLiquidation.equity (self : FirmClaimsLiquidation)
    (coupon cash_flow debt_liquidation : ℝ) : Except String ℝ := do
  let risk_free_debt := coupon / self.asset_dynamics.r_free
  let pv_cash_flow_no_default :=
    self.asset_dynamics.value cash_flow - (1 - self.asset_dynamics.tau) * risk_free_debt
  let hit ← self.arrow_debreu_default cash_flow debt_liquidation
  let option_to_default := hit *
    (self.asset_dynamics.value debt_liquidation - (1 - self.asset_dynamics.tau) * risk_free_debt)
  pure (pv_cash_flow_no_default - option_to_default)

/-- `FirmClaimsLiquidation.debt`. -/
def FirmClaimsLiquidation.debt (self : FirmClaimsLiquidation)
    (coupon cash_flow debt_liquidation : ℝ) : Except String ℝ := do
  let risk_free_debt := coupon / self.asset_dynamics.r_free
  let hit ← self.arrow_debreu_default cash_flow debt_liquidation
  let debt_change := hit *
    ((1 - self.asset_dynamics.alpha) * self.asset_dynamics.value debt_liquidation -
      risk_free_debt)
  pure (risk_free_debt + debt_change)

/-- `FirmClaimsLiquidation.firm`: `equity + debt` at the same arguments. -/
def FirmClaimsLiquidation.firm (self : FirmClaimsLiquidation)
    (coupon cash_flow debt_liquidation : ℝ) : Except String ℝ := do
  let e ← self.equity coupon cash_flow debt_liquidation
  let d ← self.debt coupon cash_flow debt_liquidation
  pure (e + d)

/-- `FirmClaimsRenegotiation`: valuation engine for strategic renegotiation. -/
structure FirmClaimsRenegotiation where
  asset_dynamics : AssetsDynamics

/-- `FirmClaimsRenegotiation._beta2`: same formula as the liquidation engine
(the source duplicates it verbatim). -/
def FirmClaimsRenegotiation.beta2 (self : FirmClaimsRenegotiation) : ℝ :=
  0.5 - self.asset_dynamics.drift / self.asset_dynamics.volatility ^ 2 -
    Real.sqrt ((0.5 - self.asset_dynamics.drift / self.asset_dynamics.volatility ^ 2) ^ 2
      + 2 * self.asset_dynamics.r_free / self.asset_dynamics.volatility ^ 2)

/-- `FirmClaimsRenegotiation._arrow_debreu_default`: here the source *calls*
`self._beta2()`, so the exponent is the float `beta2`. -/
def FirmClaimsRenegotiation.arrow_debreu_default (self : FirmClaimsRenegotiation)
    (cash_flow debt_limit : ℝ) : Except String ℝ :=
  pypow (cash_flow / debt_limit) (PyVal.float self.beta2)

/-- `FirmClaimsRenegotiation.debt_renegotiation`: endogenous trigger level
`(r - mu) * (coupon/r) * beta2 / ((beta2 - 1) * (1 - (1-q)*theta))`.
Reads the optional attributes `q` and `theta`. -/
def FirmClaimsRenegotiation.debt_renegotiation (self : FirmClaimsRenegotiation)
    (coupon : ℝ) : Except String ℝ := do
  let risk_free_debt := coupon / self.asset_dynamics.r_free
  let q ← pyNum self.asset_dynamics.q
  let theta ← pyNum self.asset_dynamics.theta
  pure ((self.asset_dynamics.r_free - self.asset_dynamics.drift) * risk_free_debt *
    self.beta2 / ((self.beta2 - 1) * (1 - (1 - q) * theta)))

/-- `FirmClaimsRenegotiation.equity`. -/
def FirmClaimsRenegotiation.equity (self : FirmClaimsRenegotiation)
    (coupon cash_flow : ℝ) : Except String ℝ := do
  let risk_free_debt := coupon / self.asset_dynamics.r_free
  let pv_cash_flow_no_default :=
    self.asset_dynamics.value cash_flow - (1 - self.asset_dynamics.tau) * risk_free_debt
  let bound ← self.debt_renegotiation coupon
  let hit ← self.arrow_debreu_default cash_flow bound
  let q ← pyNum self.asset_dynamics.q
  let theta ← pyNum self.asset_dynamics.theta
  let option_to_default := hit *
    (self.asset_dynamics.value bound * (1 - (1 - q) * theta) -
      (1 - self.asset_dynamics.tau) * risk_free_debt)
  pure (pv_cash_flow_no_default - option_to_default)

/-- `FirmClaimsRenegotiation.debt`. -/
def FirmClaimsRenegotiation.debt (self : FirmClaimsRenegotiation)
    (coupon cash_flow : ℝ) : Except String ℝ := do
  let risk_free_debt := coupon / self.asset_dynamics.r_free
  let bound ← self.debt_renegotiation coupon
  let hit ← self.arrow_debreu_default cash_flow bound
  let q ← pyNum self.asset_dynamics.q
  let theta ← pyNum self.asset_dynamics.theta
  let debt_change := hit *
    (q * (1 - self.asset_dynamics.alpha) * self.asset_dynamics.value bound +
      (1 - q) * (1 - theta) * self.asset_dynamics.value bound - risk_free_debt)
  pure (risk_free_debt + debt_change)

/-- `FirmClaimsRenegotiation.firm`: `equity + debt` at the same arguments. -/
def FirmClaimsRenegotiation.firm (self : FirmClaimsRenegotiation)
    (coupon cash_flow : ℝ) : Except String ℝ := do
  let e ← self.equity coupon cash_flow
  let d ← self.debt coupon cash_flow
  pure (e + d)

/-- `FirmClaimsRenegotiation._obj_max_coupon`: `-1 * firm(coupon, cash_flow)`. -/
def FirmClaimsRenegotiation.obj_max_coupon (self : FirmClaimsRenegotiation)
    (coupon cash_flow : ℝ) : Except String ℝ := do
  let f ← self.firm coupon cash_flow
  pure (-1 * f)

/-- Result object returned by `scipy.optimize.minimize`: the final iterate
vector `x` and the convergence flag `success`. -/
structure OptimizeResult where
  x : List ℝ
  success : Bool

/-- `FirmClaimsRenegotiation.max_coupon`, parametrized by the external
optimizer: runs `minimize` on the negated firm value from seed `0.001` and
returns `result.x[0]` unconditionally, never reading `result.success`. -/
def FirmClaimsRenegotiation.max_coupon
    (minimize : (ℝ → Except String ℝ) → ℝ → OptimizeResult)
    (self : FirmClaimsRenegotiation) (cash_flow : ℝ) : ℝ :=
  let function := fun coupon => self.obj_max_coupon coupon cash_flow
  let result := minimize function 0.001
  result.x.headD 0

/-- Exception-propagating sum of two Python call results, as in
`return self.equity(...) + self.debt(...)`. -/
def excAdd (a b : Except String ℝ) : Except String ℝ := do
  let e ← a
  let d ← b
  pure (e + d)

/-- Value of the renegotiation boundary once `q = some qv` and
`theta = some tv` are supplied. -/
def FirmClaimsRenegotiation.boundaryVal (self : FirmClaimsRenegotiation)
    (qv tv coupon : ℝ) : ℝ :=
  (self.asset_dynamics.r_free - self.asset_dynamics.drift) *
    (coupon / self.asset_dynamics.r_free) * self.beta2 /
    ((self.beta2 - 1) * (1 - (1 - qv) * tv))

/-- Value of renegotiation-model equity once `q` and `theta` are supplied. -/
def FirmClaimsRenegotiation.equityVal (self : FirmClaimsRenegotiation)
    (qv tv coupon cash_flow : ℝ) : ℝ :=
  self.asset_dynamics.value cash_flow -
    (1 - self.asset_dynamics.tau) * (coupon / self.asset_dynamics.r_free) -
    (cash_flow / self.boundaryVal qv tv coupon) ^ self.beta2 *
      (self.asset_dynamics.value (self.boundaryVal qv tv coupon) * (1 - (1 - qv) * tv) -
        (1 - self.asset_dynamics.tau) * (coupon / self.asset_dynamics.r_free))

/-- Value of renegotiation-model debt once `q` and `theta` are supplied. -/
def FirmClaimsRenegotiation.debtVal (self : FirmClaimsRenegotiation)
    (qv tv coupon cash_flow : ℝ) : ℝ :=
  coupon / self.asset_dynamics.r_free +
    (cash_flow / self.boundaryVal qv tv coupon) ^ self.beta2 *
      (qv * (1 - self.asset_dynamics.alpha) *
          self.asset_dynamics.value (self.boundaryVal qv tv coupon) +
        (1 - qv) * (1 - tv) *
          self.asset_dynamics.value (self.boundaryVal qv tv coupon) -
        coupon / self.asset_dynamics.r_free)

/-- Parameters of the example scenario, without renegotiation fields. -/
def adBase : AssetsDynamics :=
  { drift := 0.01, volatility := 0.25, r_free := 0.04, tau := 0.15, alpha := 0.4 }

/-- Parameters of the example scenario with `q = 1`, `eta = 0.5`,
`theta = eta * alpha = 0.2`. -/
def adRen : AssetsDynamics :=
  { drift := 0.01, volatility := 0.25, r_free := 0.04, tau := 0.15, alpha := 0.4,
    q := some 1, eta := some 0.5, theta := some 0.2 }

/-- An optimizer run that fails to converge: it reports `success = false`
and leaves the final iterate at the seed. -/
def failedMinimize : (ℝ → Except String ℝ) → ℝ → OptimizeResult :=
  fun _ x0 => ⟨[x0], false⟩

-- Helper lemmas ------------------------------------------------------------

/-- Run lemma: with both optional fields present, `debt_renegotiation`
returns the boundary value. -/
lemma debt_renegotiation_run (ad : AssetsDynamics) (qv tv coupon : ℝ)
    (hq : ad.q = some qv) (ht : ad.theta = some tv) :
    (FirmClaimsRenegotiation.mk ad).debt_renegotiation coupon =
      Except.ok ((FirmClaimsRenegotiation.mk ad).boundaryVal qv tv coupon) := by
  simp [FirmClaimsRenegotiation.debt_renegotiation, FirmClaimsRenegotiation.boundaryVal,
    pyNum, hq, ht, Bind.bind, Except.bind, Pure.pure, Except.pure]

/-- Run lemma: with both optional fields present, `debt` returns `debtVal`. -/
lemma debt_run (ad : AssetsDynamics) (qv tv coupon cash_flow : ℝ)
    (hq : ad.q = some qv) (ht : ad.theta = some tv) :
    (FirmClaimsRenegotiation.mk ad).debt coupon cash_flow =
      Except.ok ((FirmClaimsRenegotiation.mk ad).debtVal qv tv coupon cash_flow) := by
  simp [FirmClaimsRenegotiation.debt, FirmClaimsRenegotiation.debtVal,
    FirmClaimsRenegotiation.arrow_debreu_default, pypow,
    debt_renegotiation_run ad qv tv coupon hq ht, pyNum, hq, ht, Bind.bind, Except.bind, Pure.pure, Except.pure]

/-- Run lemma: with both optional fields present, `equity` returns
`equityVal`. -/
lemma equity_run (ad : AssetsDynamics) (qv tv coupon cash_flow : ℝ)
    (hq : ad.q = some qv) (ht : ad.theta = some tv) :
    (FirmClaimsRenegotiation.mk ad).equity coupon cash_flow =
      Except.ok ((FirmClaimsRenegotiation.mk ad).equityVal qv tv coupon cash_flow) := by
  simp [FirmClaimsRenegotiation.equity, FirmClaimsRenegotiation.equityVal,
    FirmClaimsRenegotiation.arrow_debreu_default, pypow,
    debt_renegotiation_run ad qv tv coupon hq ht, pyNum, hq, ht, Bind.bind, Except.bind, Pure.pure, Except.pure]

/-- If the radicand strictly dominates the square, subtracting the root goes
negative. -/
lemma sub_sqrt_neg (a d : ℝ) (h : a ^ 2 < d) : a - Real.sqrt d < 0 := by
  have h1 : Real.sqrt (a ^ 2) < Real.sqrt d := Real.sqrt_lt_sqrt (sq_nonneg a) h
  rw [Real.sqrt_sq_eq_abs] at h1
  have h2 : a ≤ |a| := le_abs_self a
  linarith

/-- The two engines compute the same `beta2`. -/
lemma beta2_liq_eq (ad : AssetsDynamics) :
    (FirmClaimsLiquidation.mk ad).beta2 = (FirmClaimsRenegotiation.mk ad).beta2 := rfl

/-- `beta2` is strictly negative for positive volatility and rate. -/
lemma beta2_neg (ad : AssetsDynamics) (hv : 0 < ad.volatility) (hr : 0 < ad.r_free) :
    (FirmClaimsRenegotiation.mk ad).beta2 < 0 := by
  have hv2 : 0 < ad.volatility ^ 2 := pow_pos hv 2
  have hdisc : (0.5 - ad.drift / ad.volatility ^ 2) ^ 2 <
      (0.5 - ad.drift / ad.volatility ^ 2) ^ 2 + 2 * ad.r_free / ad.volatility ^ 2 := by
    have h2r : 0 < 2 * ad.r_free / ad.volatility ^ 2 := div_pos (by linarith) hv2
    linarith
  have h := sub_sqrt_neg (0.5 - ad.drift / ad.volatility ^ 2) _ hdisc
  exact h

/-- For `b < 0` the factor `b / (b - 1)` lies in `[0, 1)`. -/
lemma ratio_nonneg_lt_one (b : ℝ) (hb : b < 0) : 0 ≤ b / (b - 1) ∧ b / (b - 1) < 1 := by
  have hb1 : b - 1 < 0 := by linarith
  constructor
  · exact le_of_lt (div_pos_iff.mpr (Or.inr ⟨hb, hb1⟩))
  · exact div_lt_one_iff.mpr (Or.inr (Or.inr ⟨hb1, by linarith⟩))

/-- The renegotiation boundary value is strictly positive on the domain. -/
lemma boundaryVal_pos (ad : AssetsDynamics) (qv tv coupon : ℝ)
    (hv : 0 < ad.volatility) (hr : 0 < ad.r_free) (hmu : ad.drift < ad.r_free)
    (hc : 0 < coupon) (hs : 0 < 1 - (1 - qv) * tv) :
    0 < (FirmClaimsRenegotiation.mk ad).boundaryVal qv tv coupon := by
  have hb : (FirmClaimsRenegotiation.mk ad).beta2 < 0 := beta2_neg ad hv hr
  unfold FirmClaimsRenegotiation.boundaryVal
  have hnum : (ad.r_free - ad.drift) * (coupon / ad.r_free) *
      (FirmClaimsRenegotiation.mk ad).beta2 < 0 :=
    mul_neg_of_pos_of_neg (mul_pos (sub_pos.mpr hmu) (div_pos hc hr)) hb
  have hden : ((FirmClaimsRenegotiation.mk ad).beta2 - 1) * (1 - (1 - qv) * tv) < 0 :=
    mul_neg_of_neg_of_pos (by linarith) hs
  exact div_pos_iff.mpr (Or.inr ⟨hnum, hden⟩)

/-- Perpetuity value of the boundary level, with `r - mu` cancelled. -/
lemma value_boundaryVal (ad : AssetsDynamics) (qv tv coupon : ℝ)
    (hrmu : ad.r_free - ad.drift ≠ 0) :
    ad.value ((FirmClaimsRenegotiation.mk ad).boundaryVal qv tv coupon) =
      (1 - ad.tau) * (coupon / ad.r_free) *
        ((FirmClaimsRenegotiation.mk ad).beta2 /
          (((FirmClaimsRenegotiation.mk ad).beta2 - 1) * (1 - (1 - qv) * tv))) := by
  unfold AssetsDynamics.value FirmClaimsRenegotiation.boundaryVal
  have key : ∀ A k b D t : ℝ, A ≠ 0 → A * k * b / D * t / A = t * k * (b / D) := by
    intro A k b D t hA
    calc A * k * b / D * t / A = A * (k * (b / D) * t) / A := by ring
      _ = k * (b / D) * t := mul_div_cancel_left₀ _ hA
      _ = t * k * (b / D) := by ring
  exact key _ _ _ _ _ hrmu

/-- The probability-weighted recovery at the boundary falls strictly short of
the risk-free annuity value. -/
lemma recovery_term_neg (b c r t a qv tv V : ℝ)
    (hb : b < 0) (hc : 0 < c) (hr : 0 < r)
    (ht0 : 0 ≤ t) (ht1 : t < 1) (ha0 : 0 ≤ a) (ha1 : a ≤ 1)
    (hq0 : 0 ≤ qv) (hq1 : qv ≤ 1) (htv0 : 0 ≤ tv) (htv1 : tv ≤ 1)
    (hqt : (1 - qv) * tv < 1)
    (hV : V = (1 - t) * (c / r) * (b / ((b - 1) * (1 - (1 - qv) * tv)))) :
    qv * (1 - a) * V + (1 - qv) * (1 - tv) * V - c / r < 0 := by
  have hs : 0 < 1 - (1 - qv) * tv := by linarith
  have hb1 : b - 1 < 0 := by linarith
  have hden : (b - 1) * (1 - (1 - qv) * tv) < 0 := mul_neg_of_neg_of_pos hb1 hs
  have hrho : 0 < b / ((b - 1) * (1 - (1 - qv) * tv)) := div_pos_iff.mpr (Or.inr ⟨hb, hden⟩)
  set s : ℝ := 1 - (1 - qv) * tv with hsdef
  set rho : ℝ := b / ((b - 1) * s) with hrhodef
  have hsrho : s * rho = b / (b - 1) := by
    rw [hrhodef]
    field_simp [hs.ne', hb1.ne]
    ring
  have hbb1 : b / (b - 1) < 1 := (ratio_nonneg_lt_one b hb).2
  have hm0 : 0 ≤ qv * (1 - a) + (1 - qv) * (1 - tv) := by
    have h1 : 0 ≤ qv * (1 - a) := mul_nonneg hq0 (by linarith)
    have h2 : 0 ≤ (1 - qv) * (1 - tv) := mul_nonneg (by linarith) (by linarith)
    linarith
  have hms : qv * (1 - a) + (1 - qv) * (1 - tv) ≤ s := by
    have h1 : 0 ≤ qv * a := mul_nonneg hq0 ha0
    rw [hsdef]; nlinarith
  have hmt : (qv * (1 - a) + (1 - qv) * (1 - tv)) * (1 - t) ≤ s := by
    nlinarith [mul_nonneg hm0 ht0]
  have key : (qv * (1 - a) + (1 - qv) * (1 - tv)) * (1 - t) * rho < 1 := by
    calc (qv * (1 - a) + (1 - qv) * (1 - tv)) * (1 - t) * rho ≤ s * rho :=
          mul_le_mul_of_nonneg_right hmt (le_of_lt hrho)
      _ = b / (b - 1) := hsrho
      _ < 1 := hbb1
  have hcr : 0 < c / r := div_pos hc hr
  have hgoal : qv * (1 - a) * V + (1 - qv) * (1 - tv) * V - c / r =
      c / r * ((qv * (1 - a) + (1 - qv) * (1 - tv)) * (1 - t) * rho - 1) := by
    rw [hV]; ring
  rw [hgoal]
  exact mul_neg_of_pos_of_neg hcr (by linarith)

-- Claim theorems ------------------------------------------------------------

/-- C5: for every drift, every volatility > 0 and every r_free > 0, the
discriminant under the square root in `_beta2` is non-negative (so the root
is real) and the computed `beta2` is strictly negative, in both engines. -/
theorem c5_beta2_real_and_negative (ad : AssetsDynamics)
    (hv : 0 < ad.volatility) (hr : 0 < ad.r_free) :
    0 ≤ (0.5 - ad.drift / ad.volatility ^ 2) ^ 2 + 2 * ad.r_free / ad.volatility ^ 2 ∧
    (FirmClaimsLiquidation.mk ad).beta2 < 0 ∧
    (FirmClaimsRenegotiation.mk ad).beta2 < 0 := by
  refine ⟨?_, ?_, beta2_neg ad hv hr⟩
  · have h2r : 0 ≤ 2 * ad.r_free / ad.volatility ^ 2 :=
      le_of_lt (div_pos (by linarith) (pow_pos hv 2))
    exact add_nonneg (sq_nonneg _) h2r
  · rw [beta2_liq_eq]; exact beta2_neg ad hv hr

/-- Witness for C5 at the example parameters. -/
theorem c5_witness :
    0 < adBase.volatility ∧ 0 < adBase.r_free ∧
      (0 ≤ (0.5 - adBase.drift / adBase.volatility ^ 2) ^ 2 +
          2 * adBase.r_free / adBase.volatility ^ 2 ∧
        (FirmClaimsLiquidation.mk adBase).beta2 < 0 ∧
        (FirmClaimsRenegotiation.mk adBase).beta2 < 0) := by
  have h1 : 0 < adBase.volatility := by norm_num [adBase]
  have h2 : 0 < adBase.r_free := by norm_num [adBase]
  exact ⟨h1, h2, c5_beta2_real_and_negative adBase h1 h2⟩

/-- C1: the claim fails on the liquidation engine: its
`_arrow_debreu_default` exponentiates by the *uncalled* bound method
`self._beta2`, so Python raises a TypeError instead of returning a number,
already at `cash_flow = barrier = 1` with the example parameters.  On the
renegotiation engine the helper does return `(cash_flow/barrier) ** beta2`
and equals 1 at `cash_flow = barrier > 0`. -/
theorem c1_arrow_debreu_default (m : FirmClaimsRenegotiation) (b : ℝ)
    (hb : 0 < b) (hv : 0 < m.asset_dynamics.volatility) :
    (FirmClaimsLiquidation.mk adBase).arrow_debreu_default 1 1 =
      Except.error typeErrorPow ∧
    (∀ cash_flow barrier : ℝ,
      m.arrow_debreu_default cash_flow barrier =
        Except.ok ((cash_flow / barrier) ^ m.beta2)) ∧
    m.arrow_debreu_default b b = Except.ok 1 := by
  refine ⟨rfl, fun cash_flow barrier => rfl, ?_⟩
  have hdiv : b / b = 1 := div_self (ne_of_gt hb)
  simp [FirmClaimsRenegotiation.arrow_debreu_default, pypow, hdiv, Real.one_rpow]

/-- Witness for C1 with barrier 1 on the example renegotiation scenario. -/
theorem c1_witness :
    0 < (1 : ℝ) ∧ 0 < adRen.volatility ∧
      ((FirmClaimsLiquidation.mk adBase).arrow_debreu_default 1 1 =
          Except.error typeErrorPow ∧
        (FirmClaimsRenegotiation.mk adRen).arrow_debreu_default 1 1 = Except.ok 1) := by
  have h1 : 0 < (1 : ℝ) := one_pos
  have h2 : 0 < adRen.volatility := by norm_num [adRen]
  have h := c1_arrow_debreu_default (FirmClaimsRenegotiation.mk adRen) 1 h1 h2
  exact ⟨h1, h2, h.1, h.2.2⟩

/-- C7: the liquidation-model debt formula is never computed: at the example
parameters with coupon 1, cash_flow 2 and boundary 1 the call raises the
TypeError coming from `_arrow_debreu_default` (uncalled `_beta2`). -/
theorem c7_liquidation_debt_raises :
    (FirmClaimsLiquidation.mk adBase).debt 1 2 1 = Except.error typeErrorPow := rfl

/-- C3: with `q` and `theta` present, `debt_renegotiation(coupon)` returns
exactly `(r - mu) * (coupon/r) * beta2 / ((beta2 - 1) * (1 - (1-q)*theta))`. -/
theorem c3_renegotiation_boundary_formula (ad : AssetsDynamics) (qv tv coupon : ℝ)
    (hq : ad.q = some qv) (ht : ad.theta = some tv)
    (hr : ad.r_free ≠ 0) (hv : 0 < ad.volatility)
    (hs : 1 - (1 - qv) * tv ≠ 0) :
    (FirmClaimsRenegotiation.mk ad).debt_renegotiation coupon =
      Except.ok ((ad.r_free - ad.drift) * (coupon / ad.r_free) *
        (FirmClaimsRenegotiation.mk ad).beta2 /
        (((FirmClaimsRenegotiation.mk ad).beta2 - 1) * (1 - (1 - qv) * tv))) := by
  rw [debt_renegotiation_run ad qv tv coupon hq ht]
  rfl

/-- Witness for C3 at the example renegotiation scenario with coupon 1. -/
theorem c3_witness :
    adRen.q = some 1 ∧ adRen.theta = some 0.2 ∧ adRen.r_free ≠ 0 ∧
      0 < adRen.volatility ∧ (1 : ℝ) - (1 - 1) * 0.2 ≠ 0 ∧
      (FirmClaimsRenegotiation.mk adRen).debt_renegotiation 1 =
        Except.ok ((adRen.r_free - adRen.drift) * (1 / adRen.r_free) *
          (FirmClaimsRenegotiation.mk adRen).beta2 /
          (((FirmClaimsRenegotiation.mk adRen).beta2 - 1) * (1 - (1 - 1) * 0.2))) := by
  refine ⟨rfl, rfl, by norm_num [adRen], by norm_num [adRen], by norm_num, ?_⟩
  exact c3_renegotiation_boundary_formula adRen 1 0.2 1 rfl rfl
    (by norm_num [adRen]) (by norm_num [adRen]) (by norm_num)

/-- C2: value additivity.  `firm` is by construction the exception-propagating
sum of `equity` and `debt` in the liquidation engine (all three raise the same
TypeError there, see C1); in the renegotiation engine, whenever `q` and
`theta` are present, equity and debt return numbers and firm returns exactly
their sum. -/
theorem c2_firm_additivity (ad : AssetsDynamics)
    (qv tv coupon cash_flow debt_liquidation : ℝ)
    (hq : ad.q = some qv) (ht : ad.theta = some tv) :
    (FirmClaimsLiquidation.mk ad).firm coupon cash_flow debt_liquidation =
      excAdd ((FirmClaimsLiquidation.mk ad).equity coupon cash_flow debt_liquidation)
        ((FirmClaimsLiquidation.mk ad).debt coupon cash_flow debt_liquidation) ∧
    ∃ e d, (FirmClaimsRenegotiation.mk ad).equity coupon cash_flow = Except.ok e ∧
      (FirmClaimsRenegotiation.mk ad).debt coupon cash_flow = Except.ok d ∧
      (FirmClaimsRenegotiation.mk ad).firm coupon cash_flow = Except.ok (e + d) := by
  refine ⟨rfl, _, _, equity_run ad qv tv coupon cash_flow hq ht,
    debt_run ad qv tv coupon cash_flow hq ht, ?_⟩
  simp [FirmClaimsRenegotiation.firm, equity_run ad qv tv coupon cash_flow hq ht,
    debt_run ad qv tv coupon cash_flow hq ht, Bind.bind, Except.bind, Pure.pure, Except.pure]

/-- Witness for C2 at the example scenario with coupon 1, cash flow 1,
boundary 1. -/
theorem c2_witness :
    adRen.q = some 1 ∧ adRen.theta = some 0.2 ∧
      ((FirmClaimsLiquidation.mk adRen).firm 1 1 1 =
        excAdd ((FirmClaimsLiquidation.mk adRen).equity 1 1 1)
          ((FirmClaimsLiquidation.mk adRen).debt 1 1 1) ∧
      ∃ e d, (FirmClaimsRenegotiation.mk adRen).equity 1 1 = Except.ok e ∧
        (FirmClaimsRenegotiation.mk adRen).debt 1 1 = Except.ok d ∧
        (FirmClaimsRenegotiation.mk adRen).firm 1 1 = Except.ok (e + d)) :=
  ⟨rfl, rfl, c2_firm_additivity adRen 1 0.2 1 1 1 rfl rfl⟩

/-- C8: `max_coupon` never inspects the optimizer convergence flag: a
minimization that terminates unconverged (`success = false`) with its final
iterate still at the seed 0.001 makes `max_coupon` silently return 0.001 as
if it were the optimum. -/
theorem c8_max_coupon_ignores_convergence :
    (failedMinimize
        (fun c => (FirmClaimsRenegotiation.mk adRen).obj_max_coupon c 1) 0.001).success
        = false ∧
    FirmClaimsRenegotiation.max_coupon failedMinimize
        (FirmClaimsRenegotiation.mk adRen) 1 = 0.001 :=
  ⟨rfl, rfl⟩

/-- C9: every liquidation-model operation reads only drift, volatility,
r_free, tau and alpha; two parameter bundles agreeing on those five fields
give identical equity, debt and firm results whatever their q, eta, theta. -/
theorem c9_liquidation_ignores_renegotiation_fields (ad1 ad2 : AssetsDynamics)
    (h1 : ad1.drift = ad2.drift) (h2 : ad1.volatility = ad2.volatility)
    (h3 : ad1.r_free = ad2.r_free) (h4 : ad1.tau = ad2.tau) (h5 : ad1.alpha = ad2.alpha)
    (coupon cash_flow debt_liquidation : ℝ) :
    (FirmClaimsLiquidation.mk ad1).equity coupon cash_flow debt_liquidation =
      (FirmClaimsLiquidation.mk ad2).equity coupon cash_flow debt_liquidation ∧
    (FirmClaimsLiquidation.mk ad1).debt coupon cash_flow debt_liquidation =
      (FirmClaimsLiquidation.mk ad2).debt coupon cash_flow debt_liquidation ∧
    (FirmClaimsLiquidation.mk ad1).firm coupon cash_flow debt_liquidation =
      (FirmClaimsLiquidation.mk ad2).firm coupon cash_flow debt_liquidation := by
  refine ⟨?_, ?_, ?_⟩ <;>
    simp [FirmClaimsLiquidation.equity, FirmClaimsLiquidation.debt,
      FirmClaimsLiquidation.firm, FirmClaimsLiquidation.arrow_debreu_default, pypow,
      Bind.bind, Except.bind]

/-- Witness for C9: adBase (no renegotiation fields) against adRen (all three
set) at coupon 1, cash flow 2, boundary 1. -/
theorem c9_witness :
    adBase.drift = adRen.drift ∧ adBase.volatility = adRen.volatility ∧
      adBase.r_free = adRen.r_free ∧ adBase.tau = adRen.tau ∧
      adBase.alpha = adRen.alpha ∧
      ((FirmClaimsLiquidation.mk adBase).equity 1 2 1 =
          (FirmClaimsLiquidation.mk adRen).equity 1 2 1 ∧
        (FirmClaimsLiquidation.mk adBase).debt 1 2 1 =
          (FirmClaimsLiquidation.mk adRen).debt 1 2 1 ∧
        (FirmClaimsLiquidation.mk adBase).firm 1 2 1 =
          (FirmClaimsLiquidation.mk adRen).firm 1 2 1) :=
  ⟨rfl, rfl, rfl, rfl, rfl,
    c9_liquidation_ignores_renegotiation_fields adBase adRen rfl rfl rfl rfl rfl 1 2 1⟩

/-- C10: if `q` or `theta` is left at its default None, `debt_renegotiation`,
`equity`, `debt` and `firm` of the renegotiation engine all fail with the
TypeError from arithmetic on None; no earlier validation intervenes. -/
theorem c10_none_fields_raise (ad : AssetsDynamics) (coupon cash_flow : ℝ)
    (h : ad.q = none ∨ ad.theta = none) :
    (FirmClaimsRenegotiation.mk ad).debt_renegotiation coupon =
      Except.error typeErrorNone ∧
    (FirmClaimsRenegotiation.mk ad).equity coupon cash_flow =
      Except.error typeErrorNone ∧
    (FirmClaimsRenegotiation.mk ad).debt coupon cash_flow =
      Except.error typeErrorNone ∧
    (FirmClaimsRenegotiation.mk ad).firm coupon cash_flow =
      Except.error typeErrorNone := by
  have hdr : (FirmClaimsRenegotiation.mk ad).debt_renegotiation coupon =
      Except.error typeErrorNone := by
    rcases h with h | h
    · simp [FirmClaimsRenegotiation.debt_renegotiation, pyNum, h, Bind.bind, Except.bind]
    · cases hq : ad.q with
      | none =>
          simp [FirmClaimsRenegotiation.debt_renegotiation, pyNum, hq,
            Bind.bind, Except.bind]
      | some v =>
          simp [FirmClaimsRenegotiation.debt_renegotiation, pyNum, hq, h,
            Bind.bind, Except.bind]
  have heq : (FirmClaimsRenegotiation.mk ad).equity coupon cash_flow =
      Except.error typeErrorNone := by
    simp [FirmClaimsRenegotiation.equity, hdr, Bind.bind, Except.bind]
  have hde : (FirmClaimsRenegotiation.mk ad).debt coupon cash_flow =
      Except.error typeErrorNone := by
    simp [FirmClaimsRenegotiation.debt, hdr, Bind.bind, Except.bind]
  refine ⟨hdr, heq, hde, ?_⟩
  simp [FirmClaimsRenegotiation.firm, heq, Bind.bind, Except.bind]

/-- Witness for C10 with everything left at the defaults (adBase). -/
theorem c10_witness :
    (adBase.q = none ∨ adBase.theta = none) ∧
      ((FirmClaimsRenegotiation.mk adBase).debt_renegotiation 1 =
          Except.error typeErrorNone ∧
        (FirmClaimsRenegotiation.mk adBase).equity 1 1 = Except.error typeErrorNone ∧
        (FirmClaimsRenegotiation.mk adBase).debt 1 1 = Except.error typeErrorNone ∧
        (FirmClaimsRenegotiation.mk adBase).firm 1 1 = Except.error typeErrorNone) :=
  ⟨Or.inl rfl, c10_none_fields_raise adBase 1 1 (Or.inl rfl)⟩

/-- C4: in the renegotiation model, on the stated parameter domain, debt is
non-decreasing in cash flow at or above the renegotiation boundary and is
bounded above by `coupon / r_free`. -/
theorem c4_debt_monotone_bounded (ad : AssetsDynamics) (qv tv coupon x1 x2 : ℝ)
    (hq : ad.q = some qv) (ht : ad.theta = some tv)
    (hv : 0 < ad.volatility) (hr : 0 < ad.r_free) (hmu : ad.drift < ad.r_free)
    (ht0 : 0 ≤ ad.tau) (ht1 : ad.tau < 1) (ha0 : 0 ≤ ad.alpha) (ha1 : ad.alpha ≤ 1)
    (hq0 : 0 ≤ qv) (hq1 : qv ≤ 1) (htv0 : 0 ≤ tv) (htv1 : tv ≤ 1)
    (hqt : (1 - qv) * tv < 1) (hc : 0 < coupon)
    (hx1 : (FirmClaimsRenegotiation.mk ad).boundaryVal qv tv coupon ≤ x1)
    (hx2 : x1 ≤ x2) :
    ∃ d1 d2,
      (FirmClaimsRenegotiation.mk ad).debt coupon x1 = Except.ok d1 ∧
      (FirmClaimsRenegotiation.mk ad).debt coupon x2 = Except.ok d2 ∧
      d1 ≤ d2 ∧ d2 ≤ coupon / ad.r_free := by
  have hb : (FirmClaimsRenegotiation.mk ad).beta2 < 0 := beta2_neg ad hv hr
  have hs : 0 < 1 - (1 - qv) * tv := by linarith
  have hB : 0 < (FirmClaimsRenegotiation.mk ad).boundaryVal qv tv coupon :=
    boundaryVal_pos ad qv tv coupon hv hr hmu hc hs
  have hx1pos : 0 < x1 := lt_of_lt_of_le hB hx1
  have hx2pos : 0 < x2 := lt_of_lt_of_le hx1pos hx2
  have hV : ad.value ((FirmClaimsRenegotiation.mk ad).boundaryVal qv tv coupon) =
      (1 - ad.tau) * (coupon / ad.r_free) *
        ((FirmClaimsRenegotiation.mk ad).beta2 /
          (((FirmClaimsRenegotiation.mk ad).beta2 - 1) * (1 - (1 - qv) * tv))) :=
    value_boundaryVal ad qv tv coupon (by linarith)
  have hK : qv * (1 - ad.alpha) *
        ad.value ((FirmClaimsRenegotiation.mk ad).boundaryVal qv tv coupon) +
      (1 - qv) * (1 - tv) *
        ad.value ((FirmClaimsRenegotiation.mk ad).boundaryVal qv tv coupon) -
      coupon / ad.r_free < 0 :=
    recovery_term_neg ((FirmClaimsRenegotiation.mk ad).beta2) coupon ad.r_free ad.tau
      ad.alpha qv tv _ hb hc hr ht0 ht1 ha0 ha1 hq0 hq1 htv0 htv1 hqt hV
  have hdiv : x1 / (FirmClaimsRenegotiation.mk ad).boundaryVal qv tv coupon ≤
      x2 / (FirmClaimsRenegotiation.mk ad).boundaryVal qv tv coupon := by gcongr
  have hx1B : 0 < x1 / (FirmClaimsRenegotiation.mk ad).boundaryVal qv tv coupon :=
    div_pos hx1pos hB
  have hrpow : (x2 / (FirmClaimsRenegotiation.mk ad).boundaryVal qv tv coupon) ^
        (FirmClaimsRenegotiation.mk ad).beta2 ≤
      (x1 / (FirmClaimsRenegotiation.mk ad).boundaryVal qv tv coupon) ^
        (FirmClaimsRenegotiation.mk ad).beta2 :=
    Real.rpow_le_rpow_of_nonpos hx1B hdiv (le_of_lt hb)
  have ha2pos : 0 < (x2 / (FirmClaimsRenegotiation.mk ad).boundaryVal qv tv coupon) ^
      (FirmClaimsRenegotiation.mk ad).beta2 :=
    Real.rpow_pos_of_pos (div_pos hx2pos hB) _
  have hval : ∀ x : ℝ, (FirmClaimsRenegotiation.mk ad).debtVal qv tv coupon x =
      coupon / ad.r_free +
        (x / (FirmClaimsRenegotiation.mk ad).boundaryVal qv tv coupon) ^
            (FirmClaimsRenegotiation.mk ad).beta2 *
          (qv * (1 - ad.alpha) *
              ad.value ((FirmClaimsRenegotiation.mk ad).boundaryVal qv tv coupon) +
            (1 - qv) * (1 - tv) *
              ad.value ((FirmClaimsRenegotiation.mk ad).boundaryVal qv tv coupon) -
            coupon / ad.r_free) := fun x => rfl
  refine ⟨_, _, debt_run ad qv tv coupon x1 hq ht, debt_run ad qv tv coupon x2 hq ht,
    ?_, ?_⟩
  · rw [hval x1, hval x2]
    have hmul := mul_le_mul_of_nonpos_right hrpow (le_of_lt hK)
    linarith
  · rw [hval x2]
    have hmul : (x2 / (FirmClaimsRenegotiation.mk ad).boundaryVal qv tv coupon) ^
          (FirmClaimsRenegotiation.mk ad).beta2 *
        (qv * (1 - ad.alpha) *
            ad.value ((FirmClaimsRenegotiation.mk ad).boundaryVal qv tv coupon) +
          (1 - qv) * (1 - tv) *
            ad.value ((FirmClaimsRenegotiation.mk ad).boundaryVal qv tv coupon) -
          coupon / ad.r_free) ≤ 0 :=
      mul_nonpos_iff.mpr (Or.inl ⟨le_of_lt ha2pos, le_of_lt hK⟩)
    linarith

/-- The example-scenario renegotiation boundary for coupon 1 lies below the
cash-flow level 1. -/
lemma adRen_boundary_le_one :
    (FirmClaimsRenegotiation.mk adRen).boundaryVal 1 0.2 1 ≤ 1 := by
  have hb : (FirmClaimsRenegotiation.mk adRen).beta2 < 0 :=
    beta2_neg adRen (by norm_num [adRen]) (by norm_num [adRen])
  have hratio := ratio_nonneg_lt_one ((FirmClaimsRenegotiation.mk adRen).beta2) hb
  have hrw : (FirmClaimsRenegotiation.mk adRen).boundaryVal 1 0.2 1 =
      0.75 * ((FirmClaimsRenegotiation.mk adRen).beta2 /
        ((FirmClaimsRenegotiation.mk adRen).beta2 - 1)) := by
    unfold FirmClaimsRenegotiation.boundaryVal
    norm_num [adRen]
    ring
  rw [hrw]
  nlinarith [hratio.1, hratio.2]

/-- Witness for C4 at the example scenario, coupon 1, cash flows 1 and 2. -/
theorem c4_witness :
    ∃ d1 d2,
      (FirmClaimsRenegotiation.mk adRen).debt 1 1 = Except.ok d1 ∧
      (FirmClaimsRenegotiation.mk adRen).debt 1 2 = Except.ok d2 ∧
      d1 ≤ d2 ∧ d2 ≤ 1 / adRen.r_free :=
  c4_debt_monotone_bounded adRen 1 0.2 1 1 2 rfl rfl (by norm_num [adRen])
    (by norm_num [adRen]) (by norm_num [adRen]) (by norm_num [adRen])
    (by norm_num [adRen]) (by norm_num [adRen]) (by norm_num [adRen])
    (by norm_num) (by norm_num) (by norm_num) (by norm_num) (by norm_num)
    (by norm_num) adRen_boundary_le_one (by norm_num)
